import Mathlib

/-!
Shallow embedding of the request-validation / upstream-call pipeline of the
stability-landbot-middleware repository (src/lib/helpers.js and
src/api/enhance-image.js), together with theorems settling the spec claims.

JavaScript numbers are modelled by rationals (IEEE rounding is not modelled);
JavaScript strings by Lean strings; absent object fields by `Option`/a
dedicated `undefined` value.  Platform builtins used by the code
(`parseFloat`, `new URL`, `fetch`) are modelled explicitly where their
behaviour is observable through the claims.
-/

namespace Middleware

/-- A JavaScript value, restricted to the shapes that can reach the
validated fields (`prompt`, `strength`, `image_url`) of a parsed JSON body. -/
inductive JSValue
  | undefined
  | null
  | bool (b : Bool)
  | num (q : ℚ)
  | str (s : String)
deriving DecidableEq, Repr

/-- JavaScript falsiness for the modelled values
(`undefined`, `null`, `false`, `0`, `""` are falsy). -/
def JSValue.falsy : JSValue → Bool
  | .undefined => true
  | .null => true
  | .bool b => !b
  | .num q => q == 0
  | .str s => s == ""

/-- `typeof v === 'string'`. -/
def JSValue.isStr : JSValue → Bool
  | .str _ => true
  | _ => false

/-- Result of JavaScript numeric conversion: NaN, an infinity, or a finite
value (modelled as a rational). -/
inductive JSNum
  | nan
  | posInf
  | negInf
  | finite (q : ℚ)
deriving DecidableEq, Repr

/-- Value of a list of decimal digit characters. -/
def digitsToNat (ds : List Char) : ℕ :=
  ds.foldl (fun a c => 10 * a + (c.toNat - 48)) 0

/-- Exponent part of a JS `StrDecimalLiteral`: `[eE][+-]?digits`.  When the
`e` is present but not followed by a digit, `parseFloat` does not consume it,
so the exponent contributes a factor of one. -/
def parseExponent : List Char → ℤ
  | c :: rest =>
    if c = 'e' ∨ c = 'E' then
      match rest with
      | '+' :: r2 =>
        let ds := r2.takeWhile Char.isDigit
        if ds.isEmpty then 0 else (digitsToNat ds : ℤ)
      | '-' :: r2 =>
        let ds := r2.takeWhile Char.isDigit
        if ds.isEmpty then 0 else -(digitsToNat ds : ℤ)
      | r2 =>
        let ds := r2.takeWhile Char.isDigit
        if ds.isEmpty then 0 else (digitsToNat ds : ℤ)
    else 0
  | [] => 0

/-- Model of JavaScript `parseFloat` on a string: skip leading whitespace,
optional sign, then the longest prefix that is `Infinity` or a decimal
literal `digits [. digits] [exp]` / `. digits [exp]`; anything else is NaN.
Rationals stand in for IEEE doubles; rounding is not modelled. -/
def parseFloatString (s : String) : JSNum :=
  let cs := s.toList.dropWhile Char.isWhitespace
  let sign : ℚ := match cs with
    | '-' :: _ => -1
    | _ => 1
  let cs2 : List Char := match cs with
    | '+' :: r => r
    | '-' :: r => r
    | _ => cs
  if cs2.take 8 = "Infinity".toList then
    (if sign = 1 then .posInf else .negInf)
  else
    let ip := cs2.takeWhile Char.isDigit
    let r3 := cs2.dropWhile Char.isDigit
    let fp : List Char := match r3 with
      | '.' :: r => r.takeWhile Char.isDigit
      | _ => []
    let r4 : List Char := match r3 with
      | '.' :: r => r.dropWhile Char.isDigit
      | _ => r3
    if ip.isEmpty ∧ fp.isEmpty then .nan
    else
      let e := parseExponent r4
      let mantissa : ℚ :=
        sign * ((digitsToNat ip : ℚ) + (digitsToNat fp : ℚ) / (10 : ℚ) ^ fp.length)
      .finite (mantissa * (10 : ℚ) ^ e)

/-- `parseFloat` applied to a JS value: non-string, non-number arguments are
first converted to the strings `"undefined"`, `"null"`, `"true"`, `"false"`,
all of which parse to NaN; a finite number round-trips to itself. -/
def parseFloatJS : JSValue → JSNum
  | .num q => .finite q
  | .str s => parseFloatString s
  | _ => .nan

/-- Model of `String.prototype.toLowerCase` (ASCII; the repository's inputs
are ASCII identifiers). -/
def jsToLower (s : String) : String :=
  String.mk (s.toList.map Char.toLower)

/-- Split a character list at every occurrence of `c` (model of
`String.prototype.split` with a single-character separator: always returns at
least one piece). -/
def splitChar (c : Char) : List Char → List (List Char)
  | [] => [[]]
  | x :: xs =>
    if x = c then [] :: splitChar c xs
    else
      match splitChar c xs with
      | [] => [[x]]
      | p :: ps => (x :: p) :: ps

instance {α β : Type} [DecidableEq α] [DecidableEq β] : DecidableEq (Except α β) := fun a b =>
  match a, b with
  | .error x, .error y =>
    if h : x = y then .isTrue (h ▸ rfl) else .isFalse (fun hh => h (Except.error.inj hh))
  | .error _, .ok _ => .isFalse (fun hh => Except.noConfusion hh)
  | .ok _, .error _ => .isFalse (fun hh => Except.noConfusion hh)
  | .ok x, .ok y =>
    if h : x = y then .isTrue (h ▸ rfl) else .isFalse (fun hh => h (Except.ok.inj hh))

/-! ## src/lib/helpers.js -/

/-- `getMimeType(format)` from src/lib/helpers.js: case-insensitive lookup in
`{webp, png, jpeg, jpg}`, defaulting to `image/webp` (the `format?.toLowerCase()`
optional chaining makes an absent argument hit the default as well).
This plain-map model ignores the prototype chain of the source's object
literal; it agrees with the faithful `getMimeTypeProto` below on every key
that is not an `Object.prototype` member name — in particular on all
validated output formats. -/
def getMimeType (format : Option String) : String :=
  match format.map jsToLower with
  | some "webp" => "image/webp"
  | some "png" => "image/png"
  | some "jpeg" => "image/jpeg"
  | some "jpg" => "image/jpeg"
  | _ => "image/webp"

/-- `contentType.split(';')[0].toLowerCase()`: the main content type of a
header value. -/
def mainContentType (s : String) : String :=
  jsToLower (String.mk ((splitChar ';' s.toList).headD []))

/-- `getFileExtension(contentType)` from src/lib/helpers.js: take the part of
the header before the first `;`, lowercase it, look it up, defaulting to
`.bin`.  This plain-map model ignores the prototype chain of the source's
object literal; it agrees with the faithful `getFileExtensionProto` below on
every key that is not an `Object.prototype` member name. -/
def getFileExtension (contentType : Option String) : String :=
  match contentType.map mainContentType with
  | some "image/webp" => ".webp"
  | some "image/png" => ".png"
  | some "image/jpeg" => ".jpg"
  | some "image/jpg" => ".jpg"
  | some "application/octet-stream" => ".bin"
  | _ => ".bin"

/-- A value read from a JavaScript object property: a string own-property
value, or a truthy non-string member inherited from `Object.prototype` (its
methods, and the prototype object itself for `__proto__`). -/
inductive JSProp
  | strVal (s : String)
  | protoMember (name : String)
deriving DecidableEq, Repr

/-- The own property names of `Object.prototype`: a bracket lookup on an
object literal that misses every own key and hits one of these returns the
inherited member — a function (or, for `__proto__`, the prototype object),
all of them truthy — instead of `undefined`. -/
def objectProtoNames : List String :=
  ["constructor", "__proto__", "__defineGetter__", "__defineSetter__",
   "__lookupGetter__", "__lookupSetter__", "hasOwnProperty", "isPrototypeOf",
   "propertyIsEnumerable", "toLocaleString", "toString", "valueOf"]

/-- The bracket lookup `obj[key]` on an object literal with string-valued own
properties `own`, prototype chain included: own keys first, then
`Object.prototype` members, else `undefined` (`none`). -/
def objectLookup (own : List (String × String)) (key : String) : Option JSProp :=
  match own with
  | [] => if objectProtoNames.contains key then some (.protoMember key) else none
  | kv :: rest => if key = kv.1 then some (.strVal kv.2) else objectLookup rest key

/-- The own entries of the `mimeTypes` object literal in `getMimeType`. -/
def mimeTypesOwn : List (String × String) :=
  [("webp", "image/webp"), ("png", "image/png"), ("jpeg", "image/jpeg"), ("jpg", "image/jpeg")]

/-- The own entries of the `extensions` object literal in
`getFileExtension`. -/
def extensionsOwn : List (String × String) :=
  [("image/webp", ".webp"), ("image/png", ".png"), ("image/jpeg", ".jpg"),
   ("image/jpg", ".jpg"), ("application/octet-stream", ".bin")]

/-- `getMimeType(format)` modelled with the full semantics of the source's
`mimeTypes[format?.toLowerCase()] || 'image/webp'`: the object-literal
lookup traverses the prototype chain, and every inherited member is truthy,
so a key colliding with an `Object.prototype` member name skips the `||`
default.  An absent argument makes the lookup key `undefined`, which misses
both the own keys and the prototype, hence defaults. -/
def getMimeTypeProto (format : Option String) : JSProp :=
  match format.map jsToLower with
  | none => .strVal "image/webp"
  | some k =>
    match objectLookup mimeTypesOwn k with
    | some v => v
    | none => .strVal "image/webp"

/-- `getFileExtension(contentType)` modelled with the full semantics of the
source's `extensions[mainType] || '.bin'`, prototype chain included. -/
def getFileExtensionProto (contentType : Option String) : JSProp :=
  match contentType.map mainContentType with
  | none => .strVal ".bin"
  | some k =>
    match objectLookup extensionsOwn k with
    | some v => v
    | none => .strVal ".bin"

/-- Input to `validateParams`: the four fields it destructures from the
request body.  `aspect_ratio` and `output_format` are modelled as optional
strings (the JSON shape of the API); `prompt` and `strength` keep full JS
value generality because the code type-checks them. -/
structure InputParams where
  prompt : JSValue
  aspect_ratio : Option String
  output_format : Option String
  strength : JSValue
deriving DecidableEq, Repr

/-- The record `validateParams` returns. -/
structure ValidatedParams where
  prompt : String
  aspect_ratio : String
  output_format : String
  strength : Option ℚ
deriving DecidableEq, Repr

/-- Model of `String.prototype.trim`: drop whitespace from both ends. -/
def jsTrim (s : String) : String :=
  String.mk (((s.toList.dropWhile Char.isWhitespace).reverse.dropWhile Char.isWhitespace).reverse)

/-- JS `x || default` on an optional string: `none` and `""` are falsy. -/
def stringOrDefault (x : Option String) (d : String) : String :=
  match x with
  | some s => if s = "" then d else s
  | none => d

/-- The regex test `/^\d+:\d+$/.test(s)`: exactly two non-empty all-digit
runs separated by one colon. -/
def aspectRatioOk (s : String) : Bool :=
  match splitChar ':' s.toList with
  | [a, b] =>
      !a.isEmpty && a.all Char.isDigit && !b.isEmpty && b.all Char.isDigit
  | _ => false

def promptErrMsg : String := "Prompt is required and must be a non-empty string"

def strengthErrMsg : String := "Strength must be a number between 0 and 1"

def aspectErrMsg : String := "Aspect ratio must be in format \"width:height\" (e.g., \"16:9\")"

def formatErrMsg : String := "Output format must be one of: webp, png, jpeg"

/-- The strength block of `validateParams`: skipped when the field is
`undefined`; otherwise `parseFloat`, then the
`isNaN(n) || n < 0 || n > 1` rejection (NaN and the infinities all fail it,
the endpoints 0 and 1 pass). -/
def strengthStep : JSValue → Except String (Option ℚ)
  | .undefined => .ok none
  | v =>
    match parseFloatJS v with
    | .finite q => if q < 0 ∨ 1 < q then .error strengthErrMsg else .ok (some q)
    | _ => .error strengthErrMsg

/-- `validateParams(params)` from src/lib/helpers.js, with the source's check
order: prompt, then strength (when not `undefined`), then aspect-ratio
pattern, then output-format membership.  Note the returned `output_format` is
the defaulted input string: only the membership *check* lowercases it. -/
def validateParams (input : InputParams) : Except String ValidatedParams :=
  if input.prompt.falsy || !input.prompt.isStr then .error promptErrMsg
  else
    match input.prompt with
    | .str s =>
      if jsTrim s = "" then .error promptErrMsg
      else
        let ar := stringOrDefault input.aspect_ratio "1:1"
        let fmt := stringOrDefault input.output_format "webp"
        match strengthStep input.strength with
        | .error e => .error e
        | .ok st =>
          if !aspectRatioOk ar then .error aspectErrMsg
          else if !(["webp", "png", "jpeg"].contains (jsToLower fmt)) then .error formatErrMsg
          else .ok { prompt := jsTrim s, aspect_ratio := ar, output_format := fmt, strength := st }
    | _ => .error promptErrMsg

/-! ## src/api/enhance-image.js -/

/-- Result of the WHATWG `new URL(s)` constructor, reduced to the one field
the code reads. -/
structure URLRec where
  protocol : String
deriving DecidableEq, Repr

/-- Leading scheme of a URL string: a letter followed by letters, digits,
`+`, `-` or `.`, up to a `:`.  Returns the scheme characters and the rest. -/
def splitScheme : List Char → Option (List Char × List Char)
  | [] => none
  | c :: cs =>
    if c.isAlpha then go [c] cs else none
where
  go (acc : List Char) : List Char → Option (List Char × List Char)
    | [] => none
    | c :: cs =>
      if c = ':' then some (acc.reverse, cs)
      else if c.isAlpha || c.isDigit || c = '+' || c = '-' || c = '.' then go (c :: acc) cs
      else none

/-- Simplified model of the `new URL` builtin: succeeds when the string has a
well-formed scheme followed by `:` (with, for the special schemes `http`/
`https`, a non-empty remainder so that a host exists), and exposes the
lowercased scheme with a trailing colon as `protocol`.  Parsing details
beyond scheme extraction are abstracted; the theorems that rely on `parseURL`
only condition on its success and the extracted protocol. -/
def parseURL (s : String) : Option URLRec :=
  match splitScheme s.toList with
  | none => none
  | some (sch, rest) =>
    let proto := jsToLower (String.mk sch) ++ ":"
    if (proto = "http:" ∨ proto = "https:") ∧ rest.isEmpty then none
    else some { protocol := proto }

def urlTypeErrMsg : String := "image_url is required and must be a string"

def urlProtocolErrMsg : String := "image_url must use HTTP or HTTPS protocol"

def urlInvalidErrMsg : String := "image_url must be a valid URL"

/-- The body of the `try` block of `validateImageUrl`: `new URL` (throwing on
parse failure), then the protocol check, then return of the input string. -/
def validateImageUrlTry (s : String) : Except String String :=
  match parseURL s with
  | none => .error "TypeError: Invalid URL"
  | some u =>
    if !(u.protocol = "http:" ∨ u.protocol = "https:") then .error urlProtocolErrMsg
    else .ok s

/-- `validateImageUrl(imageUrl)` from src/api/enhance-image.js: type/falsiness
check, then the `try` block whose `catch` replaces *any* error thrown inside
it — including the protocol error — with the invalid-URL message. -/
def validateImageUrl (imageUrl : JSValue) : Except String String :=
  if imageUrl.falsy || !imageUrl.isStr then .error urlTypeErrMsg
  else
    match imageUrl with
    | .str s =>
      match validateImageUrlTry s with
      | .ok r => .ok r
      | .error _ => .error urlInvalidErrMsg
    | _ => .error urlTypeErrMsg

/-- Outcome of `downloadImage`: byte payload modelled by its length (the code
only forwards the bytes and reads `.length`), plus the declared content type
(already defaulted to `application/octet-stream` inside the fetcher). -/
structure FetchedImage where
  bufferLength : ℕ
  contentType : String
deriving DecidableEq, Repr

/-- Parsed JSON body of the upstream response; `image` is `none` when the
field is absent. -/
structure UpstreamJson where
  image : Option String
deriving DecidableEq, Repr

/-- The upstream `fetch` response as observed by `callStabilityAPI`:
`ok`/`status`, the raw text used for the error message, and the result of
`response.json()` (which can itself fail). -/
structure UpstreamResponse where
  ok : Bool
  status : ℕ
  bodyText : String
  jsonBody : Except String UpstreamJson
deriving Repr

/-- The per-request environment of the handler: the `STABILITY_API_KEY`
environment variable, the outcome of downloading the client's image, and the
upstream API's response (consulted only when the request is actually sent). -/
structure World where
  apiKey : Option String
  downloadResult : Except String FetchedImage
  upstream : UpstreamResponse
deriving Repr

def apiKeyErrMsg : String := "STABILITY_API_KEY environment variable is required"

def noImageErrMsg : String := "No image data received from Stability API"

/-- `!apiKey` for the environment lookup: missing or empty is falsy. -/
def apiKeyFalsy : Option String → Bool
  | none => true
  | some s => s = ""

/-- `callStabilityAPI(params, imageBuffer, contentType)` from
src/api/enhance-image.js.  The multipart body it assembles is not observable
through any claim, so `params` and the image are passed but unused.  The
boolean records whether the `fetch` to the upstream endpoint was issued.
The inner `catch` only logs and rethrows, so errors propagate unchanged. -/
def callStabilityAPI (_params : ValidatedParams) (_img : FetchedImage) (w : World) :
    Except String String × Bool :=
  if apiKeyFalsy w.apiKey then
    (.error apiKeyErrMsg, false)
  else if !w.upstream.ok then
    (.error ("Stability API error: " ++ toString w.upstream.status ++ " - " ++ w.upstream.bodyText),
      true)
  else
    match w.upstream.jsonBody with
    | .error e => (.error e, true)
    | .ok j =>
      match j.image with
      | none => (.error noImageErrMsg, true)
      | some img => if img = "" then (.error noImageErrMsg, true) else (.ok img, true)

/-- JS `haystack.includes(needle)`. -/
def includesSubstr (s pat : String) : Bool :=
  decide (List.IsInfix pat.toList s.toList)

/-- The status-code chain of the handler's `catch` block, matched on the
error message content in the source's order. -/
def errorStatusCode (msg : String) : ℕ :=
  if includesSubstr msg "required" || includesSubstr msg "must be" then 400
  else if includesSubstr msg "STABILITY_API_KEY" then 500
  else if includesSubstr msg "Stability API error" then 502
  else if includesSubstr msg "download" || includesSubstr msg "URL" then 400
  else 500

/-- The metadata record of a successful enhancement response (timestamps are
real-time values and are not modelled). -/
structure EnhanceMetadata where
  prompt : String
  aspect_ratio : String
  output_format : String
  strength : Option ℚ
  input_image_url : String
  input_image_type : String
  input_image_size_bytes : ℕ
deriving DecidableEq, Repr

/-- The handler's observable outcome: a 200 success with the data URI and
metadata, or a failure with a status, an `error` label and a `message`. -/
inductive HandlerResult
  | success (status : ℕ) (image_url : String) (metadata : EnhanceMetadata)
  | failure (status : ℕ) (error : String) (message : String)
deriving DecidableEq, Repr

/-- The parsed JSON request body of a POST to the enhance endpoint. -/
structure RequestBody where
  image_url : JSValue
  prompt : JSValue
  aspect_ratio : Option String
  output_format : Option String
  strength : JSValue
deriving DecidableEq, Repr

/-- The fields `validateParams` destructures from the body. -/
def RequestBody.toInputParams (b : RequestBody) : InputParams :=
  { prompt := b.prompt, aspect_ratio := b.aspect_ratio,
    output_format := b.output_format, strength := b.strength }

/-- `Math.round(len / 1024 / 1024)`: division by `2^20` is exact in doubles,
and `Math.round` on a non-negative value is floor of the value plus a half. -/
def roundMB (len : ℕ) : ℕ := (2 * len + 1048576) / 2097152

def tooLargeMsg (len : ℕ) : String :=
  "Image size (" ++ toString (roundMB len) ++ "MB) exceeds maximum allowed size (10MB)"

def enhanceFailLabel : String := "Image enhancement failed"

/-- The POST path of the enhance handler (src/api/enhance-image.js), after
body parsing: URL validation, parameter validation, image download (whose
failure is answered directly with 400, bypassing the catch), the 10 MiB size
check, the upstream call, and either the success response or the `catch`
block's status mapping.  The boolean is true exactly when the upstream API
was contacted. -/
def handler (body : RequestBody) (w : World) : HandlerResult × Bool :=
  match validateImageUrl body.image_url with
  | .error e => (.failure (errorStatusCode e) enhanceFailLabel e, false)
  | .ok imageUrl =>
    match validateParams body.toInputParams with
    | .error e => (.failure (errorStatusCode e) enhanceFailLabel e, false)
    | .ok params =>
      match w.downloadResult with
      | .error dmsg => (.failure 400 "Image download failed" dmsg, false)
      | .ok imageData =>
        if imageData.bufferLength > 10 * 1024 * 1024 then
          (.failure 400 "Image too large" (tooLargeMsg imageData.bufferLength), false)
        else
          match callStabilityAPI params imageData w with
          | (.error e, called) => (.failure (errorStatusCode e) enhanceFailLabel e, called)
          | (.ok img, called) =>
            (.success 200 ("data:" ++ getMimeType (some params.output_format) ++ ";base64," ++ img)
              { prompt := params.prompt
                aspect_ratio := params.aspect_ratio
                output_format := params.output_format
                strength := params.strength
                input_image_url := imageUrl
                input_image_type := imageData.contentType
                input_image_size_bytes := imageData.bufferLength }, called)

/-! ## Concrete inputs used by the theorems -/

/-- The spec's example generation/enhancement parameters with an upper-case
format. -/
def pngExampleInput : InputParams :=
  { prompt := .str "A cat", aspect_ratio := some "16:9",
    output_format := some "PNG", strength := .undefined }

/-- A well-formed enhancement request body. -/
def exampleBody : RequestBody :=
  { image_url := .str "https://example.com/a.png", prompt := .str "A cat",
    aspect_ratio := none, output_format := none, strength := .undefined }

/-- A successful upstream response carrying the spec's example payload. -/
def okUpstream : UpstreamResponse :=
  { ok := true, status := 200, bodyText := "", jsonBody := .ok { image := some "AAAA" } }

/-- A success-status upstream response whose JSON body lacks the `image`
field. -/
def noImageUpstream : UpstreamResponse :=
  { ok := true, status := 200, bodyText := "", jsonBody := .ok { image := none } }

def smallImage : FetchedImage := { bufferLength := 4, contentType := "image/png" }

/-- An 11 MiB download, strictly above the 10 MiB cap. -/
def bigImage : FetchedImage := { bufferLength := 11534336, contentType := "image/png" }

/-- Environment with no `STABILITY_API_KEY`. -/
def missingKeyWorld : World :=
  { apiKey := none, downloadResult := .ok smallImage, upstream := okUpstream }

def okWorld : World :=
  { apiKey := some "k", downloadResult := .ok smallImage, upstream := okUpstream }

def noImageWorld : World :=
  { apiKey := some "k", downloadResult := .ok smallImage, upstream := noImageUpstream }

def bigImageWorld : World :=
  { apiKey := some "k", downloadResult := .ok bigImage, upstream := okUpstream }

/-- Parameters with an out-of-range strength. -/
def strengthTooBigInput : InputParams :=
  { prompt := .str "A cat", aspect_ratio := none, output_format := none, strength := .num 2 }

/-- Parameters with strength at the upper endpoint. -/
def strengthOneInput : InputParams :=
  { prompt := .str "A cat", aspect_ratio := none, output_format := none, strength := .num 1 }

/-- Parameters with strength at the lower endpoint. -/
def strengthZeroInput : InputParams :=
  { prompt := .str "A cat", aspect_ratio := none, output_format := none, strength := .num 0 }

/-- The spec's example of a failing input: empty prompt. -/
def emptyPromptInput : InputParams :=
  { prompt := .str "", aspect_ratio := none, output_format := some "webp", strength := .undefined }

/-! ## Helper lemmas -/

/-- The prototype-aware mappers coincide with the plain-map models on the
supported formats and their MIME types — the only keys the validated
pipeline can feed them. -/
theorem proto_model_agrees_on_known_keys :
    getMimeTypeProto (some "webp") = .strVal (getMimeType (some "webp")) ∧
    getMimeTypeProto (some "png") = .strVal (getMimeType (some "png")) ∧
    getMimeTypeProto (some "jpeg") = .strVal (getMimeType (some "jpeg")) ∧
    getMimeTypeProto (some "jpg") = .strVal (getMimeType (some "jpg")) ∧
    getMimeTypeProto (some "PNG") = .strVal (getMimeType (some "PNG")) ∧
    getFileExtensionProto (some "image/webp") = .strVal (getFileExtension (some "image/webp")) ∧
    getFileExtensionProto (some "image/png") = .strVal (getFileExtension (some "image/png")) ∧
    getFileExtensionProto (some "image/jpeg") = .strVal (getFileExtension (some "image/jpeg")) ∧
    getFileExtensionProto (some "image/jpg") = .strVal (getFileExtension (some "image/jpg")) ∧
    getFileExtensionProto (some "application/octet-stream") =
      .strVal (getFileExtension (some "application/octet-stream")) := by
  decide

/-- `strengthStep` on any non-`undefined` value is the `parseFloat` branch. -/
theorem strengthStep_ne_undefined (v : JSValue) (hv : v ≠ .undefined) :
    strengthStep v =
      match parseFloatJS v with
      | .finite q => if q < 0 ∨ 1 < q then .error strengthErrMsg else .ok (some q)
      | _ => .error strengthErrMsg := by
  cases v with
  | undefined => exact absurd rfl hv
  | null => rfl
  | bool b => rfl
  | num q => rfl
  | str s => rfl

/-- `strengthStep` on a value parsing to a finite number is the range
check. -/
theorem strengthStep_finite (v : JSValue) (q : ℚ)
    (hpf : parseFloatJS v = .finite q) :
    strengthStep v = if q < 0 ∨ 1 < q then .error strengthErrMsg else .ok (some q) := by
  have hv : v ≠ .undefined := by
    intro h
    subst h
    simp [parseFloatJS] at hpf
  rw [strengthStep_ne_undefined v hv, hpf]

/-- `strengthStep` on a value parsing to NaN or an infinity fails. -/
theorem strengthStep_nonfinite (v : JSValue) (hv : v ≠ .undefined)
    (hpf : ∀ q : ℚ, parseFloatJS v ≠ .finite q) :
    strengthStep v = .error strengthErrMsg := by
  rw [strengthStep_ne_undefined v hv]
  cases h : parseFloatJS v with
  | finite q => exact absurd h (hpf q)
  | nan => rfl
  | posInf => rfl
  | negInf => rfl

/-- The only failure message `strengthStep` can produce. -/
theorem strengthStep_error_msg (v : JSValue) (e : String)
    (h : strengthStep v = .error e) : e = strengthErrMsg := by
  by_cases hv : v = .undefined
  · subst hv
    simp [strengthStep] at h
  · rw [strengthStep_ne_undefined v hv] at h
    cases hpf : parseFloatJS v with
    | finite q =>
      rw [hpf] at h
      have h' : (if q < 0 ∨ 1 < q then (Except.error strengthErrMsg : Except String (Option ℚ))
          else .ok (some q)) = .error e := h
      split at h'
      · exact (Except.error.inj h').symm
      · exact absurd h' (by simp)
    | nan =>
      rw [hpf] at h
      exact (Except.error.inj h).symm
    | posInf =>
      rw [hpf] at h
      exact (Except.error.inj h).symm
    | negInf =>
      rw [hpf] at h
      exact (Except.error.inj h).symm

/-- `validateParams` on a prompt that is not a string, or whose trim is
empty, fails with the prompt message. -/
theorem validateParams_prompt_bad (input : InputParams)
    (h : (∀ t, input.prompt ≠ .str t) ∨ ∃ t, input.prompt = .str t ∧ jsTrim t = "") :
    validateParams input = .error promptErrMsg := by
  unfold validateParams
  cases hp : input.prompt with
  | undefined => simp [JSValue.falsy]
  | null => simp [JSValue.falsy]
  | bool b => simp [JSValue.falsy, JSValue.isStr]
  | num q => simp [JSValue.falsy, JSValue.isStr]
  | str s =>
    rcases h with h | ⟨t, ht, htrim⟩
    · exact absurd hp (h s)
    · rw [hp] at ht
      obtain rfl : s = t := JSValue.str.inj ht
      by_cases hs : s = ""
      · subst hs; simp [JSValue.falsy, JSValue.isStr]
      · simp [JSValue.falsy, JSValue.isStr, hs, htrim]

/-- Under a good prompt, `validateParams` reduces to the strength /
aspect-ratio / format tail. -/
theorem validateParams_str_eq (input : InputParams) (s : String)
    (hp : input.prompt = .str s) (hs : jsTrim s ≠ "") :
    validateParams input =
      match strengthStep input.strength with
      | .error e => .error e
      | .ok st =>
        if !aspectRatioOk (stringOrDefault input.aspect_ratio "1:1") then .error aspectErrMsg
        else if !(["webp", "png", "jpeg"].contains
            (jsToLower (stringOrDefault input.output_format "webp"))) then .error formatErrMsg
        else .ok { prompt := jsTrim s, aspect_ratio := stringOrDefault input.aspect_ratio "1:1",
                   output_format := stringOrDefault input.output_format "webp", strength := st } := by
  have hs0 : s ≠ "" := by
    intro h
    exact hs (by rw [h]; rfl)
  unfold validateParams
  rw [hp]
  simp [JSValue.falsy, JSValue.isStr, hs0, hs]

/-- A present strength value that does not parse to a finite number in range
fails the strength check. -/
theorem strengthStep_bad (v : JSValue) (q : ℚ) (hv : v ≠ .undefined)
    (h : (∀ p : ℚ, parseFloatJS v ≠ .finite p) ∨
      (parseFloatJS v = .finite q ∧ (q < 0 ∨ 1 < q))) :
    strengthStep v = .error strengthErrMsg := by
  rcases h with h | ⟨hq, hout⟩
  · exact strengthStep_nonfinite v hv h
  · rw [strengthStep_finite v q hq, if_pos hout]

/-- Under a good prompt, `validateParams` never produces the prompt
message. -/
theorem validateParams_str_ne_prompt_err (input : InputParams) (s : String)
    (hp : input.prompt = .str s) (hs : jsTrim s ≠ "") :
    validateParams input ≠ .error promptErrMsg := by
  rw [validateParams_str_eq input s hp hs]
  cases hst : strengthStep input.strength with
  | error e =>
    have he := strengthStep_error_msg _ _ hst
    subst he
    simp [promptErrMsg, strengthErrMsg]
  | ok st =>
    simp only []
    split
    · simp [promptErrMsg, aspectErrMsg]
    · split
      · simp [promptErrMsg, formatErrMsg]
      · simp

/-- Once URL validation, parameter validation and the download succeed, the
handler is the size check followed by the upstream call. -/
theorem handler_ok_path (body : RequestBody) (w : World) (u : String)
    (p : ValidatedParams) (img : FetchedImage)
    (h1 : validateImageUrl body.image_url = .ok u)
    (h2 : validateParams body.toInputParams = .ok p)
    (h3 : w.downloadResult = .ok img) :
    handler body w =
      if img.bufferLength > 10 * 1024 * 1024 then
        (.failure 400 "Image too large" (tooLargeMsg img.bufferLength), false)
      else
        match callStabilityAPI p img w with
        | (.error e, called) => (.failure (errorStatusCode e) enhanceFailLabel e, called)
        | (.ok i, called) =>
          (.success 200 ("data:" ++ getMimeType (some p.output_format) ++ ";base64," ++ i)
            { prompt := p.prompt, aspect_ratio := p.aspect_ratio,
              output_format := p.output_format, strength := p.strength,
              input_image_url := u, input_image_type := img.contentType,
              input_image_size_bytes := img.bufferLength }, called) := by
  unfold handler
  rw [h1, h2, h3]

/-- When the key is present and the upstream body parses but carries no
`image` field, the upstream call reports the missing-image error after
contacting the API. -/
theorem callStabilityAPI_no_image (p : ValidatedParams) (img : FetchedImage) (w : World)
    (h5 : apiKeyFalsy w.apiKey = false) (h6 : w.upstream.ok = true)
    (h7 : w.upstream.jsonBody = .ok { image := none }) :
    callStabilityAPI p img w = (.error noImageErrMsg, true) := by
  unfold callStabilityAPI
  rw [h5, h6, h7]
  rfl

/-- When the key is present and the upstream body carries a non-empty
`image` field, the upstream call returns it verbatim. -/
theorem callStabilityAPI_ok (p : ValidatedParams) (img : FetchedImage) (w : World) (i : String)
    (h5 : apiKeyFalsy w.apiKey = false) (h6 : w.upstream.ok = true)
    (h7 : w.upstream.jsonBody = .ok { image := some i }) (h8 : i ≠ "") :
    callStabilityAPI p img w = (.ok i, true) := by
  unfold callStabilityAPI
  rw [h5, h6, h7]
  simp [h8]

/-! ## Claim theorems -/

/-- Claim C1 (code bug): with `STABILITY_API_KEY` absent, on an otherwise
valid request the pipeline fails with exactly the configuration message and
no upstream call is attempted — but the handler's response status is 400,
not the claimed 500: the message contains "required", so the catch block's
first branch fires before the `STABILITY_API_KEY` branch (whose own comment
says 500 was intended) can be reached. -/
theorem handler_missing_key_is_400 :
    handler exampleBody missingKeyWorld =
      (.failure 400 enhanceFailLabel apiKeyErrMsg, false) ∧
    errorStatusCode apiKeyErrMsg = 400 ∧ (400 : ℕ) ≠ 500 := by
  refine ⟨by decide, by decide, by decide⟩

/-- Claim C2 (counterexample): the spec's example input with
`output_format: "PNG"` validates successfully, but the returned record keeps
`"PNG"` verbatim — it is not normalized to lowercase `"png"`. -/
theorem validateParams_png_not_lowercased :
    validateParams pngExampleInput =
      .ok { prompt := "A cat", aspect_ratio := "16:9", output_format := "PNG", strength := none } ∧
    (validateParams pngExampleInput).map ValidatedParams.output_format ≠ .ok "png" := by
  refine ⟨by decide, by decide⟩

/-- Claim C3 (counterexample): a success-status upstream response whose JSON
body lacks the `image` field makes the pipeline fail with the
"No image data received" message after the upstream call, but the handler
maps it to status 500, not the claimed 502 (the message does not contain
"Stability API error", the only substring mapped to 502). -/
theorem handler_no_image_is_500 :
    handler exampleBody noImageWorld =
      (.failure 500 enhanceFailLabel noImageErrMsg, true) ∧
    (handler exampleBody noImageWorld).1 ≠ .failure 502 enhanceFailLabel noImageErrMsg := by
  refine ⟨by decide, by decide⟩

/-- Claim C9: for every supported output format, mapping it to a MIME type
and that MIME type back to a file extension yields a genuine image
extension, never the `.bin` fallback. -/
theorem format_roundtrip_valid_extension :
    getFileExtension (some (getMimeType (some "webp"))) = ".webp" ∧
    getFileExtension (some (getMimeType (some "png"))) = ".png" ∧
    getFileExtension (some (getMimeType (some "jpeg"))) = ".jpg" ∧
    getFileExtension (some (getMimeType (some "jpg"))) = ".jpg" ∧
    getFileExtension (some (getMimeType (some "webp"))) ≠ ".bin" ∧
    getFileExtension (some (getMimeType (some "png"))) ≠ ".bin" ∧
    getFileExtension (some (getMimeType (some "jpeg"))) ≠ ".bin" ∧
    getFileExtension (some (getMimeType (some "jpg"))) ≠ ".bin" := by
  decide

/-- Claim C8 (code bug): the format mappers are not total with the claimed
defaults.  The source looks keys up in plain object literals, so the lookup
traverses the prototype chain: an input whose lowercase (resp. main content
type) collides with an `Object.prototype` member name — `constructor` or
`__proto__` are reachable after lowercasing — returns the inherited truthy
member, skipping the `||` default, instead of the claimed `image/webp` /
`.bin`; absent, empty and genuinely unknown inputs do default as claimed. -/
theorem format_mapper_prototype_leak :
    getMimeTypeProto (some "constructor") = .protoMember "constructor" ∧
    getMimeTypeProto (some "CONSTRUCTOR") = .protoMember "constructor" ∧
    getMimeTypeProto (some "__proto__") = .protoMember "__proto__" ∧
    getFileExtensionProto (some "constructor") = .protoMember "constructor" ∧
    getFileExtensionProto (some "__proto__; charset=utf-8") = .protoMember "__proto__" ∧
    getMimeTypeProto (some "constructor") ≠ .strVal "image/webp" ∧
    getFileExtensionProto (some "constructor") ≠ .strVal ".bin" ∧
    getMimeTypeProto none = .strVal "image/webp" ∧
    getMimeTypeProto (some "") = .strVal "image/webp" ∧
    getMimeTypeProto (some "gif") = .strVal "image/webp" ∧
    getFileExtensionProto none = .strVal ".bin" ∧
    getFileExtensionProto (some "gif") = .strVal ".bin" := by
  decide

/-- Claim C2 (amended): for every input with a non-empty trimmed string
prompt, a pattern-matching (possibly defaulted) aspect ratio, an output
format that is case-insensitively webp, png or jpeg (possibly defaulted),
and no strength field, `validateParams` succeeds, returning the trimmed
prompt and the output format exactly as provided — preserved verbatim, not
lowercased. -/
theorem validateParams_valid_inputs_succeed (input : InputParams) (s : String)
    (hp : input.prompt = .str s) (hs : jsTrim s ≠ "")
    (har : aspectRatioOk (stringOrDefault input.aspect_ratio "1:1") = true)
    (hf : ["webp", "png", "jpeg"].contains
      (jsToLower (stringOrDefault input.output_format "webp")) = true)
    (hst : input.strength = .undefined) :
    validateParams input =
      .ok { prompt := jsTrim s,
            aspect_ratio := stringOrDefault input.aspect_ratio "1:1",
            output_format := stringOrDefault input.output_format "webp",
            strength := none } := by
  rw [validateParams_str_eq input s hp hs, hst, har, hf]
  rfl

/-- Witness for C2's amended claim at the spec's example input: the returned
format is the verbatim `"PNG"`. -/
theorem validateParams_valid_inputs_succeed_witness :
    validateParams pngExampleInput =
      .ok { prompt := "A cat", aspect_ratio := "16:9", output_format := "PNG",
            strength := none } :=
  validateParams_valid_inputs_succeed pngExampleInput "A cat" rfl (by decide) (by decide)
    (by decide) rfl

/-- Claim C4: a present strength value that does not parse to a finite
number in [0,1] makes `validateParams` fail; a present value parsing to a
finite number in [0,1] (endpoints included) makes it succeed with that
number, other fields being valid; an absent strength leaves the returned
field unset. -/
theorem validateParams_strength_spec (input : InputParams) (s : String) (q : ℚ) :
    (input.strength ≠ .undefined →
      ((∀ p : ℚ, parseFloatJS input.strength ≠ .finite p) ∨
        (parseFloatJS input.strength = .finite q ∧ (q < 0 ∨ 1 < q))) →
      ∃ e, validateParams input = .error e) ∧
    (input.prompt = .str s → jsTrim s ≠ "" →
      aspectRatioOk (stringOrDefault input.aspect_ratio "1:1") = true →
      ["webp", "png", "jpeg"].contains
        (jsToLower (stringOrDefault input.output_format "webp")) = true →
      input.strength ≠ .undefined → parseFloatJS input.strength = .finite q →
      0 ≤ q → q ≤ 1 →
      validateParams input =
        .ok { prompt := jsTrim s,
              aspect_ratio := stringOrDefault input.aspect_ratio "1:1",
              output_format := stringOrDefault input.output_format "webp",
              strength := some q }) ∧
    (input.strength = .undefined → ∀ v, validateParams input = .ok v → v.strength = none) := by
  refine ⟨?_, ?_, ?_⟩
  · intro hv hbad
    cases hpr : input.prompt with
    | str t =>
      by_cases ht : jsTrim t = ""
      · exact ⟨promptErrMsg, validateParams_prompt_bad input (Or.inr ⟨t, hpr, ht⟩)⟩
      · refine ⟨strengthErrMsg, ?_⟩
        rw [validateParams_str_eq input t hpr ht, strengthStep_bad input.strength q hv hbad]
    | undefined =>
      exact ⟨promptErrMsg, validateParams_prompt_bad input (Or.inl (by rw [hpr]; intro t h; exact JSValue.noConfusion h))⟩
    | null =>
      exact ⟨promptErrMsg, validateParams_prompt_bad input (Or.inl (by rw [hpr]; intro t h; exact JSValue.noConfusion h))⟩
    | bool b =>
      exact ⟨promptErrMsg, validateParams_prompt_bad input (Or.inl (by rw [hpr]; intro t h; exact JSValue.noConfusion h))⟩
    | num p =>
      exact ⟨promptErrMsg, validateParams_prompt_bad input (Or.inl (by rw [hpr]; intro t h; exact JSValue.noConfusion h))⟩
  · intro hp hs har hf hv hpf h0 h1
    rw [validateParams_str_eq input s hp hs, strengthStep_finite input.strength q hpf,
      if_neg (by push_neg; exact ⟨h0, h1⟩), har, hf]
    rfl
  · intro hv v hok
    cases hpr : input.prompt with
    | str t =>
      by_cases ht : jsTrim t = ""
      · rw [validateParams_prompt_bad input (Or.inr ⟨t, hpr, ht⟩)] at hok
        exact Except.noConfusion hok
      · rw [validateParams_str_eq input t hpr ht, hv] at hok
        have hok' : (if !aspectRatioOk (stringOrDefault input.aspect_ratio "1:1") then
              (.error aspectErrMsg : Except String ValidatedParams)
            else if !(["webp", "png", "jpeg"].contains
                (jsToLower (stringOrDefault input.output_format "webp"))) then .error formatErrMsg
            else .ok { prompt := jsTrim t,
                       aspect_ratio := stringOrDefault input.aspect_ratio "1:1",
                       output_format := stringOrDefault input.output_format "webp",
                       strength := none }) = .ok v := hok
        split at hok'
        · exact Except.noConfusion hok'
        · split at hok'
          · exact Except.noConfusion hok'
          · rw [← Except.ok.inj hok']
    | undefined =>
      rw [validateParams_prompt_bad input
        (Or.inl (by rw [hpr]; intro t h; exact JSValue.noConfusion h))] at hok
      exact Except.noConfusion hok
    | null =>
      rw [validateParams_prompt_bad input
        (Or.inl (by rw [hpr]; intro t h; exact JSValue.noConfusion h))] at hok
      exact Except.noConfusion hok
    | bool b =>
      rw [validateParams_prompt_bad input
        (Or.inl (by rw [hpr]; intro t h; exact JSValue.noConfusion h))] at hok
      exact Except.noConfusion hok
    | num p =>
      rw [validateParams_prompt_bad input
        (Or.inl (by rw [hpr]; intro t h; exact JSValue.noConfusion h))] at hok
      exact Except.noConfusion hok

/-- Witness for C4: strength 2 is rejected, the endpoints 0 and 1 are
accepted, absent strength stays unset. -/
theorem validateParams_strength_spec_witness :
    (∃ e, validateParams strengthTooBigInput = .error e) ∧
    validateParams strengthOneInput =
      .ok { prompt := "A cat", aspect_ratio := "1:1", output_format := "webp",
            strength := some 1 } ∧
    validateParams strengthZeroInput =
      .ok { prompt := "A cat", aspect_ratio := "1:1", output_format := "webp",
            strength := some 0 } ∧
    ({ prompt := "A cat", aspect_ratio := "16:9", output_format := "PNG",
       strength := none } : ValidatedParams).strength = none := by
  refine ⟨?_, ?_, ?_, ?_⟩
  · exact (validateParams_strength_spec strengthTooBigInput "A cat" 2).1 (by decide)
      (Or.inr ⟨by decide, Or.inr (by norm_num)⟩)
  · exact (validateParams_strength_spec strengthOneInput "A cat" 1).2.1 rfl (by decide)
      (by decide) (by decide) (by decide) (by decide) (by norm_num) (by norm_num)
  · exact (validateParams_strength_spec strengthZeroInput "A cat" 0).2.1 rfl (by decide)
      (by decide) (by decide) (by decide) (by decide) (by norm_num) (by norm_num)
  · exact (validateParams_strength_spec pngExampleInput "A cat" 0).2.2 rfl
      { prompt := "A cat", aspect_ratio := "16:9", output_format := "PNG", strength := none }
      (by decide)

/-- Claim C7: `validateParams` fails with exactly the prompt-required
message if and only if the prompt is not a string (including absent) or
trims to the empty string; on success the returned prompt is the input
prompt with surrounding whitespace removed. -/
theorem validateParams_prompt_iff (input : InputParams) :
    (validateParams input = .error promptErrMsg ↔
      (∀ t, input.prompt ≠ .str t) ∨ (∃ t, input.prompt = .str t ∧ jsTrim t = "")) ∧
    (∀ s v, input.prompt = .str s → validateParams input = .ok v → v.prompt = jsTrim s) := by
  constructor
  · constructor
    · intro h
      by_contra hbad
      push_neg at hbad
      obtain ⟨h1, h2⟩ := hbad
      obtain ⟨t, ht⟩ := h1
      exact validateParams_str_ne_prompt_err input t ht (h2 t ht) h
    · exact validateParams_prompt_bad input
  · intro s v hp hok
    have hs : jsTrim s ≠ "" := by
      intro h0
      rw [validateParams_prompt_bad input (Or.inr ⟨s, hp, h0⟩)] at hok
      exact Except.noConfusion hok
    rw [validateParams_str_eq input s hp hs] at hok
    cases hst : strengthStep input.strength with
    | error e =>
      rw [hst] at hok
      exact Except.noConfusion hok
    | ok st =>
      rw [hst] at hok
      have hok' : (if !aspectRatioOk (stringOrDefault input.aspect_ratio "1:1") then
            (.error aspectErrMsg : Except String ValidatedParams)
          else if !(["webp", "png", "jpeg"].contains
              (jsToLower (stringOrDefault input.output_format "webp"))) then .error formatErrMsg
          else .ok { prompt := jsTrim s,
                     aspect_ratio := stringOrDefault input.aspect_ratio "1:1",
                     output_format := stringOrDefault input.output_format "webp",
                     strength := st }) = .ok v := hok
      split at hok'
      · exact Except.noConfusion hok'
      · split at hok'
        · exact Except.noConfusion hok'
        · rw [← Except.ok.inj hok']

/-- Witness for C7: the spec's empty-prompt example fails with the prompt
message, and a successful validation returns the trimmed prompt. -/
theorem validateParams_prompt_iff_witness :
    validateParams emptyPromptInput = .error promptErrMsg ∧
    ({ prompt := "A cat", aspect_ratio := "16:9", output_format := "PNG",
       strength := none } : ValidatedParams).prompt = jsTrim "A cat" := by
  constructor
  · exact (validateParams_prompt_iff emptyPromptInput).1.mpr (Or.inr ⟨"", rfl, rfl⟩)
  · exact (validateParams_prompt_iff pngExampleInput).2 "A cat"
      { prompt := "A cat", aspect_ratio := "16:9", output_format := "PNG", strength := none }
      rfl (by decide)

/-- Claim C10: for every string parsing as an absolute URL with a scheme
other than http or https, `validateImageUrl` fails with the generic
invalid-URL message, because the specific protocol error is thrown inside
the same try block whose catch replaces it; the protocol message can never
be the surfaced error, for any input. -/
theorem validateImageUrl_protocol_error_replaced (s : String) (u : URLRec)
    (hp : parseURL s = some u)
    (hhttp : u.protocol ≠ "http:") (hhttps : u.protocol ≠ "https:") :
    validateImageUrl (.str s) = .error urlInvalidErrMsg ∧
    ∀ v : JSValue, validateImageUrl v ≠ .error urlProtocolErrMsg := by
  constructor
  · have hs0 : s ≠ "" := by
      intro h
      subst h
      simp [parseURL, splitScheme] at hp
    have htry : validateImageUrlTry s = .error urlProtocolErrMsg := by
      unfold validateImageUrlTry
      rw [hp]
      simp [hhttp, hhttps]
    unfold validateImageUrl
    simp [JSValue.falsy, JSValue.isStr, hs0, htry]
  · intro v
    unfold validateImageUrl
    cases v with
    | str t =>
      by_cases ht : t = ""
      · subst ht
        simp [JSValue.falsy, JSValue.isStr, urlTypeErrMsg, urlProtocolErrMsg]
      · cases htry : validateImageUrlTry t with
        | ok r => simp [JSValue.falsy, JSValue.isStr, ht, htry]
        | error e =>
          simp [JSValue.falsy, JSValue.isStr, ht, htry, urlInvalidErrMsg, urlProtocolErrMsg]
    | undefined => simp [JSValue.falsy, urlTypeErrMsg, urlProtocolErrMsg]
    | null => simp [JSValue.falsy, urlTypeErrMsg, urlProtocolErrMsg]
    | bool b => simp [JSValue.falsy, JSValue.isStr, urlTypeErrMsg, urlProtocolErrMsg]
    | num p => simp [JSValue.falsy, JSValue.isStr, urlTypeErrMsg, urlProtocolErrMsg]

/-- Witness for C10 at an ftp URL. -/
theorem validateImageUrl_protocol_error_replaced_witness :
    validateImageUrl (.str "ftp://example.com/f.png") = .error urlInvalidErrMsg ∧
    validateImageUrl (.str "https://example.com/a.png") ≠ .error urlProtocolErrMsg := by
  constructor
  · exact (validateImageUrl_protocol_error_replaced "ftp://example.com/f.png"
      { protocol := "ftp:" } (by decide) (by decide) (by decide)).1
  · exact (validateImageUrl_protocol_error_replaced "ftp://example.com/f.png"
      { protocol := "ftp:" } (by decide) (by decide) (by decide)).2
      (.str "https://example.com/a.png")

/-- Claim C5: once validation and the download succeed, a downloaded image
strictly larger than 10 × 1024 × 1024 bytes is answered with status 400, the
"Image too large" label and a message embedding the rounded size, with no
upstream call; any image of at most that size passes the size check (the
size-rejection response cannot occur). -/
theorem handler_size_cap_spec (body : RequestBody) (w : World) (u : String)
    (p : ValidatedParams) (img : FetchedImage)
    (h1 : validateImageUrl body.image_url = .ok u)
    (h2 : validateParams body.toInputParams = .ok p)
    (h3 : w.downloadResult = .ok img) :
    (10 * 1024 * 1024 < img.bufferLength →
      handler body w = (.failure 400 "Image too large" (tooLargeMsg img.bufferLength), false)) ∧
    (img.bufferLength ≤ 10 * 1024 * 1024 →
      ∀ m, (handler body w).1 ≠ .failure 400 "Image too large" m) := by
  rw [handler_ok_path body w u p img h1 h2 h3]
  constructor
  · intro h
    rw [if_pos h]
  · intro h m
    rw [if_neg (by omega)]
    rcases hc : callStabilityAPI p img w with ⟨res, called⟩
    cases res with
    | error e => simp [enhanceFailLabel]
    | ok i => simp

/-- Witness for C5: an 11 MiB download is rejected without an upstream
call; a 4-byte download is not size-rejected. -/
theorem handler_size_cap_spec_witness :
    handler exampleBody bigImageWorld =
      (.failure 400 "Image too large" (tooLargeMsg 11534336), false) ∧
    (handler exampleBody okWorld).1 ≠ .failure 400 "Image too large" (tooLargeMsg 4) := by
  constructor
  · exact (handler_size_cap_spec exampleBody bigImageWorld "https://example.com/a.png"
      { prompt := "A cat", aspect_ratio := "1:1", output_format := "webp", strength := none }
      bigImage (by decide) (by decide) rfl).1 (by decide)
  · exact (handler_size_cap_spec exampleBody okWorld "https://example.com/a.png"
      { prompt := "A cat", aspect_ratio := "1:1", output_format := "webp", strength := none }
      smallImage (by decide) (by decide) rfl).2 (by decide) (tooLargeMsg 4)

/-- Claim C6: on a fully successful run the response is a 200 whose
`image_url` is `data:` ++ the MIME type of the validated output format ++
`;base64,` ++ the verbatim upstream image field, with metadata echoing the
validated parameters and the download facts. -/
theorem handler_success_response_spec (body : RequestBody) (w : World) (u : String)
    (p : ValidatedParams) (img : FetchedImage) (i : String)
    (h1 : validateImageUrl body.image_url = .ok u)
    (h2 : validateParams body.toInputParams = .ok p)
    (h3 : w.downloadResult = .ok img)
    (h4 : img.bufferLength ≤ 10 * 1024 * 1024)
    (h5 : apiKeyFalsy w.apiKey = false)
    (h6 : w.upstream.ok = true)
    (h7 : w.upstream.jsonBody = .ok { image := some i })
    (h8 : i ≠ "") :
    handler body w =
      (.success 200 ("data:" ++ getMimeType (some p.output_format) ++ ";base64," ++ i)
        { prompt := p.prompt, aspect_ratio := p.aspect_ratio,
          output_format := p.output_format, strength := p.strength,
          input_image_url := u, input_image_type := img.contentType,
          input_image_size_bytes := img.bufferLength }, true) := by
  rw [handler_ok_path body w u p img h1 h2 h3, if_neg (by omega),
    callStabilityAPI_ok p img w i h5 h6 h7 h8]

/-- Witness for C6 at the spec's example: upstream `{image: "AAAA"}` with
output format webp yields `data:image/webp;base64,AAAA`. -/
theorem handler_success_response_spec_witness :
    handler exampleBody okWorld =
      (.success 200 "data:image/webp;base64,AAAA"
        { prompt := "A cat", aspect_ratio := "1:1", output_format := "webp", strength := none,
          input_image_url := "https://example.com/a.png", input_image_type := "image/png",
          input_image_size_bytes := 4 }, true) :=
  handler_success_response_spec exampleBody okWorld "https://example.com/a.png"
    { prompt := "A cat", aspect_ratio := "1:1", output_format := "webp", strength := none }
    smallImage "AAAA" (by decide) (by decide) rfl (by decide) rfl rfl rfl (by decide)

/-- Claim C3 (amended): a success-status upstream response whose parsed JSON
body lacks the `image` field makes the upstream client fail with the
"No image data received from Stability API" error after contacting the API,
and the handler maps this message to HTTP status 500 (only messages
containing "Stability API error" are mapped to 502). -/
theorem handler_no_image_maps_to_500 (body : RequestBody) (w : World) (u : String)
    (p : ValidatedParams) (img : FetchedImage)
    (h1 : validateImageUrl body.image_url = .ok u)
    (h2 : validateParams body.toInputParams = .ok p)
    (h3 : w.downloadResult = .ok img)
    (h4 : img.bufferLength ≤ 10 * 1024 * 1024)
    (h5 : apiKeyFalsy w.apiKey = false)
    (h6 : w.upstream.ok = true)
    (h7 : w.upstream.jsonBody = .ok { image := none }) :
    handler body w = (.failure 500 enhanceFailLabel noImageErrMsg, true) := by
  rw [handler_ok_path body w u p img h1 h2 h3, if_neg (by omega),
    callStabilityAPI_no_image p img w h5 h6 h7]
  rfl

/-- Witness for C3's amended claim at a concrete no-image world. -/
theorem handler_no_image_maps_to_500_witness :
    handler exampleBody noImageWorld = (.failure 500 enhanceFailLabel noImageErrMsg, true) :=
  handler_no_image_maps_to_500 exampleBody noImageWorld "https://example.com/a.png"
    { prompt := "A cat", aspect_ratio := "1:1", output_format := "webp", strength := none }
    smallImage (by decide) (by decide) rfl (by decide) rfl rfl rfl

end Middleware
